import Mathlib

/-!
# Verification of the piper-tts synthesis core

Shallow embedding of `src/plugins/piper-tts/ios/cpp/piper_engine.cpp` /
`piper_engine.h` and `src/plugins/piper-tts/ios/cpp/ort_capi_adapter.cpp`.

Modelling conventions:
* C++ `float`/`double` arithmetic is modelled with exact rationals (`ℚ`);
  decimal literals of the source map to their exact decimal values.
* A phoneme string is modelled as the list of its phonetic symbols: the C++
  code decodes one UTF-8 codepoint at a time (`utf8_codepoint_len`) and uses
  each codepoint's byte slice as an atomic lookup key, so the encoder only
  ever sees a sequence of atomic symbol keys.
* The `std::map<std::string, std::vector<int64_t>>` phoneme map is modelled
  functionally as `String → Option (List Int)`.
* External effects (file open, JSON parse outcome, espeak, the ONNX C API)
  are modelled by oracle records describing the outcome of each call the
  code makes, mirroring the exact branch structure of the source.
* nlohmann `json` values are modelled by the inductive `Json`; `get<T>()`
  conversions that throw `type_error` are modelled with `Except Unit`,
  and an exception escaping `synthesize` (there is no try/catch around the
  accessors, only around `json::parse`) is the `returned = none` outcome.
-/

set_option autoImplicit false

namespace Piper

/-- Model of a nlohmann JSON value (`json.hpp`).  Integer-typed and
float-typed numbers are distinguished, as `is_number_integer` is. -/
inductive Json where
  | null
  | bool (b : Bool)
  | int (n : Int)
  | float (q : ℚ)
  | str (s : String)
  | arr (elements : List Json)
  | obj (members : List (String × Json))

/-- Object member lookup (`json::operator[]` / `find` on a parsed object;
parsed JSON objects have unique keys). Non-objects have no members. -/
def Json.find : Json → String → Option Json
  | .obj members, key => members.lookup key
  | _, _ => none

/-- `json::contains` — false on non-objects. -/
def Json.containsKey (j : Json) (key : String) : Bool := (j.find key).isSome

/-- Truncation toward zero, as C++ `static_cast` from a floating value to an
integer type does (for in-range values). -/
def truncQ (q : ℚ) : Int := if 0 ≤ q then ⌊q⌋ else ⌈q⌉

/-- nlohmann `get<int>()`: arithmetic `from_json` accepts booleans and both
number kinds (casting), and throws `type_error` on anything else. -/
def Json.getInt : Json → Except Unit Int
  | .int n => .ok n
  | .float q => .ok (truncQ q)
  | .bool b => .ok (if b then 1 else 0)
  | _ => .error ()

/-- nlohmann `get<float>()`: same acceptance rule as `getInt`. -/
def Json.getFloat : Json → Except Unit ℚ
  | .int n => .ok (n : ℚ)
  | .float q => .ok q
  | .bool b => .ok (if b then 1 else 0)
  | _ => .error ()

/-- nlohmann `get<std::string>()`: strings only, otherwise `type_error`. -/
def Json.getString : Json → Except Unit String
  | .str s => .ok s
  | _ => .error ()

/-- `el.is_number_integer()` filter used on the elements of a
`phoneme_id_map` array: keep integer-typed numbers only. -/
def jsonIntElem : Json → Option Int
  | .int n => some n
  | _ => none

/-- `parse_phoneme_id_map` (piper_engine.cpp lines 45-59), read as the lookup
function of the map it builds: no `"phoneme_id_map"` key or a non-object
value gives the empty map; a non-array entry value is skipped (`continue`);
non-integer array elements are dropped; an entry whose filtered id list is
empty is not inserted. -/
def parse_phoneme_id_map (config : Json) (key : String) : Option (List Int) :=
  match config.find "phoneme_id_map" with
  | some (Json.obj members) =>
    match members.lookup key with
    | some (Json.arr els) =>
      let ids := els.filterMap jsonIntElem
      if ids.isEmpty then none else some ids
    | _ => none
  | _ => none

/-- `default_id` computation in `synthesize` (piper_engine.cpp lines
201-204): 3, unless the map has a non-empty entry for `" "`, in which case
its first id. -/
def compute_default_id (id_map : String → Option (List Int)) : Int :=
  match id_map " " with
  | some ids => if ids.isEmpty then 3 else ids.headD 3
  | none => 3

/-- One iteration of the encoding loop of `phonemes_to_ids`
(piper_engine.cpp lines 76-88): append the symbol's mapped ids, or exactly
one `default_id` when the symbol is absent, then append the PAD ids when a
PAD entry exists. -/
def encodeStep (id_map : String → Option (List Int)) (default_id : Int)
    (ids : List Int) (sym : String) : List Int :=
  let ids2 : List Int :=
    match id_map sym with
    | some l => ids ++ l
    | none => ids ++ [default_id]
  match id_map "_" with
  | some pad => ids2 ++ pad
  | none => ids2

/-- `phonemes_to_ids` (piper_engine.cpp lines 62-95), with the UTF-8 input
string already split into its sequence of codepoint keys.  The accumulator
mirrors the C++ output vector: BOS ids then PAD ids (the PAD header is
appended inside the BOS branch), then the loop over the symbols, then EOS
ids. -/
def phonemes_to_ids (phonemes : List String)
    (id_map : String → Option (List Int)) (default_id : Int) : List Int :=
  let ids0 : List Int :=
    match id_map "^" with
    | some bos =>
      match id_map "_" with
      | some pad => bos ++ pad
      | none => bos
    | none => []
  let ids1 : List Int := phonemes.foldl (encodeStep id_map default_id) ids0
  match id_map "$" with
  | some eos => ids1 ++ eos
  | none => ids1

/-- The PAD segment: the map's `"_"` entry, or nothing. -/
def padSeg (m : String → Option (List Int)) : List Int := (m "_").getD []

/-- The header segment: BOS ids followed by PAD ids, both only when `"^"`
exists (the PAD header is emitted inside the BOS branch of the source). -/
def bosHeader (m : String → Option (List Int)) : List Int :=
  match m "^" with
  | some bos => bos ++ padSeg m
  | none => []

/-- The trailing EOS segment: the map's `"$"` entry, or nothing. -/
def eosSeg (m : String → Option (List Int)) : List Int := (m "$").getD []

/-- The contribution of one phonetic symbol: its mapped ids (or one
`default_id` when absent) followed by the PAD ids. -/
def symSeg (m : String → Option (List Int)) (d : Int) (s : String) : List Int :=
  (match m s with
   | some l => l
   | none => [d]) ++ padSeg m

/-- The body of the encoding: the symbol contributions in input order. -/
def bodySeg (m : String → Option (List Int)) (d : Int) (ps : List String) : List Int :=
  (ps.map (symSeg m d)).flatten

/-- Float→int16 PCM conversion of `synthesize` (piper_engine.cpp lines
256-268): running maximum of absolute values starting at `0.01`, scale
`32767 / max(0.01, max_val)`, then clamp to `[-32767, 32767]` and cast. -/
def to_pcm16 (audio : List ℚ) : List Int :=
  let max_val : ℚ := audio.foldl (fun m v => if |v| > m then |v| else m) (1/100)
  let scale : ℚ := 32767 / max (1/100) max_val
  audio.map (fun v => truncQ (max (-32767) (min 32767 (v * scale))))

/-- `piper::SynthesizeError` (piper_engine.h lines 14-25). -/
inductive SynthesizeError where
  | kNone
  | kInvalidArgs
  | kConfigOpenFailed
  | kConfigParseFailed
  | kEspeakNotLinked
  | kEspeakInitFailed
  | kEspeakSetVoiceFailed
  | kPhonemeIdsEmpty
  | kOrtCreateSessionFailed
  | kOrtRunInferenceFailed
deriving DecidableEq

/-- `piper::SynthesizeOverrides` (piper_engine.h lines 28-33); a negative
field means "use config/default". -/
structure SynthesizeOverrides where
  noise_scale : ℚ := -1
  length_scale : ℚ := -1
  noise_w : ℚ := -1
  gain_db : ℚ := -1

/-- Modelled from the spec: the header comment of `synthesize`
(piper_engine.h lines 35-38) documents that non-negative override fields
replace the config hyperparameter values; no code in the repository
implements this (the `.cpp` definition of `synthesize` has no overrides
parameter at all), so this definition follows the documented words for
comparison with the source behaviour. -/
def documented_resolve_scales (cfg : ℚ × ℚ × ℚ) (ov : SynthesizeOverrides) : ℚ × ℚ × ℚ :=
  ((if 0 ≤ ov.noise_scale then ov.noise_scale else cfg.1),
   (if 0 ≤ ov.length_scale then ov.length_scale else cfg.2.1),
   (if 0 ≤ ov.noise_w then ov.noise_w else cfg.2.2))

/-- An underlying ONNX Runtime session object: its pointer identity
(`OrtSession*`, modelled by a numeric id — live objects have distinct ids)
and the input names the model declares. -/
structure OrtSessionObj where
  id : Nat
  input_names : List String
deriving DecidableEq

/-- The static memo of `runInference` (ort_capi_adapter.cpp lines 228-229):
`s_last_logged_session` (the identity of the last introspected session
object, if any) and `s_session_has_sid`. -/
structure SidMemo where
  last_logged : Option Nat
  has_sid : Bool
deriving DecidableEq

/-- `logSessionIONamesAndDetectSid` (ort_capi_adapter.cpp lines 21-45),
reduced to its returned value: whether some declared input is named
`"sid"` (C-API introspection assumed to succeed). -/
def detectSid (sess : OrtSessionObj) : Bool := sess.input_names.contains "sid"

/-- Outcome oracle for one `runInference` call: whether each ONNX C-API
step succeeds, and the declared output shape and data buffer when the run
succeeds (the runtime is an external collaborator, so its results are
inputs to the model). -/
structure RunEnv where
  mem_ok : Bool
  input_ok : Bool
  lengths_ok : Bool
  scales_ok : Bool
  sid_ok : Bool
  run_ok : Bool
  output_nonnull : Bool
  shape_ok : Bool
  dims_count_ok : Bool
  dims_read_ok : Bool
  dims : List Int
  data_ok : Bool
  data_nonnull : Bool
  data : Nat → ℚ

/-- Result of a modelled `runInference` call: the returned float vector,
the static memo after the call, the input names passed to `api->Run` (when
`Run` was invoked), and whether session introspection ran. -/
structure RunResult where
  audio : List ℚ
  memo : SidMemo
  run_input_names : Option (List String)
  introspected : Bool

/-- Tail of `runInference` after the sid gate (ort_capi_adapter.cpp lines
237-344): `Run` with 4 or 3 named inputs, null-output check, shape
queries, the `total ≤ 0` guard, `GetTensorData`, and the final
`out.assign(data, data + total)`. -/
def runCore (env : RunEnv) (memo1 : SidMemo) (use_sid intr : Bool) : RunResult :=
  let names : List String :=
    if use_sid then ["input", "input_lengths", "scales", "sid"]
    else ["input", "input_lengths", "scales"]
  if env.run_ok = false then ⟨[], memo1, some names, intr⟩
  else if env.output_nonnull = false then ⟨[], memo1, some names, intr⟩
  else if env.shape_ok = false then ⟨[], memo1, some names, intr⟩
  else if env.dims_count_ok = false then ⟨[], memo1, some names, intr⟩
  else if env.dims_read_ok = false then ⟨[], memo1, some names, intr⟩
  else if env.dims.foldl (fun a b => a * b) 1 ≤ 0 then ⟨[], memo1, some names, intr⟩
  else if env.data_ok = false then ⟨[], memo1, some names, intr⟩
  else if env.data_nonnull = false then ⟨[], memo1, some names, intr⟩
  else ⟨(List.range (env.dims.foldl (fun a b => a * b) 1).toNat).map env.data,
        memo1, some names, intr⟩

/-- `runInference` (ort_capi_adapter.cpp lines 150-345): memory-info and
the four input tensors are created first (any failure returns the empty
vector with nothing else done); then the session is introspected for a
`"sid"` input unless the memoized identity matches, and `Run` receives 4
named inputs iff the memoized flag says the model has one. The scalar
arguments only feed tensor contents, which the oracle abstracts. -/
def runInference (env : RunEnv) (memo : SidMemo) (sess : OrtSessionObj)
    (phoneme_ids : List Int) (noise_scale length_scale noise_w : ℚ)
    (speaker_id : Int) : RunResult :=
  if env.mem_ok = false then ⟨[], memo, none, false⟩
  else if env.input_ok = false then ⟨[], memo, none, false⟩
  else if env.lengths_ok = false then ⟨[], memo, none, false⟩
  else if env.scales_ok = false then ⟨[], memo, none, false⟩
  else if env.sid_ok = false then ⟨[], memo, none, false⟩
  else if memo.last_logged = some sess.id then
    runCore env memo memo.has_sid false
  else
    runCore env ⟨some sess.id, detectSid sess⟩ (detectSid sess) true

/-- Observable calls the session cache makes on the ONNX adapter. -/
inductive CacheEvent where
  | destroy (sid : Nat)
  | create (path : String)
deriving DecidableEq

/-- The cache globals `g_cached_session` / `g_cached_model_path`
(piper_engine.cpp lines 26-27). -/
structure CacheState where
  cached_session : Option OrtSessionObj
  cached_model_path : String

/-- First half of the locked section (piper_engine.cpp lines 232-238): on a
path change, destroy the cached session (if any) and record the new path. -/
def cacheEvict (st : CacheState) (model_path : String) : CacheState × List CacheEvent :=
  if st.cached_model_path = model_path then (st, [])
  else
    match st.cached_session with
    | some s => (⟨none, model_path⟩, [CacheEvent.destroy s.id])
    | none => (⟨none, model_path⟩, [])

/-- Second half of the locked section (piper_engine.cpp lines 239-246): if
no session is cached, call `createSession`; a null result sets
`kOrtCreateSessionFailed` and returns failure, leaving the cache with no
session. -/
def cacheCreate (st : CacheState) (model_path : String)
    (create_result : Option OrtSessionObj) :
    CacheState × Except SynthesizeError OrtSessionObj × List CacheEvent :=
  match st.cached_session with
  | some s => (st, .ok s, [])
  | none =>
    match create_result with
    | some s => (⟨some s, st.cached_model_path⟩, .ok s, [CacheEvent.create model_path])
    | none =>
      (⟨none, st.cached_model_path⟩, .error .kOrtCreateSessionFailed,
       [CacheEvent.create model_path])

/-- The whole locked section of `synthesize` (piper_engine.cpp lines
230-247): evict on path change, then create if needed.  `create_result` is
the oracle for what `piper_ort::createSession` would return. -/
def acquireSession (st : CacheState) (model_path : String)
    (create_result : Option OrtSessionObj) :
    CacheState × Except SynthesizeError OrtSessionObj × List CacheEvent :=
  match cacheEvict st model_path with
  | (st1, evs1) =>
    match cacheCreate st1 model_path create_result with
    | (st2, r, evs2) => (st2, r, evs1 ++ evs2)

/-- `sample_rate` resolution (piper_engine.cpp lines 183-185): default
22050 unless `audio.sample_rate` is present, whose `get<int>` may throw. -/
def extract_sample_rate (config : Json) : Except Unit Int :=
  match config.find "audio" with
  | some audio =>
    match audio.find "sample_rate" with
    | some v => v.getInt
    | none => .ok 22050
  | none => .ok 22050

/-- One conditional float field read of the inference section
(`if (inf.contains(key)) x = inf[key].get<float>()`, piper_engine.cpp
lines 191-193): the default when absent, `get<float>` (which may throw)
when present. -/
def read_float_field (o : Json) (key : String) (d : ℚ) : Except Unit ℚ :=
  match o.find key with
  | some v => v.getFloat
  | none => .ok d

/-- Inference hyperparameter resolution (piper_engine.cpp lines 188-194):
defaults 0.667 / 1.0 / 0.8, each field read in source order with
`get<float>` when present; the first throwing read aborts. -/
def extract_inference (config : Json) : Except Unit (ℚ × ℚ × ℚ) :=
  match config.find "inference" with
  | none => .ok (667/1000, 1, 8/10)
  | some inf =>
    match read_float_field inf "noise_scale" (667/1000) with
    | .error e => .error e
    | .ok ns =>
      match read_float_field inf "length_scale" 1 with
      | .error e => .error e
      | .ok ls =>
        match read_float_field inf "noise_w" (8/10) with
        | .error e => .error e
        | .ok nw => .ok (ns, ls, nw)

/-- Voice resolution (piper_engine.cpp lines 196-198): default `"en-us"`
unless `espeak.voice` is present, read with `get<std::string>`. -/
def extract_voice (config : Json) : Except Unit String :=
  match config.find "espeak" with
  | some esp =>
    match esp.find "voice" with
    | some v => v.getString
    | none => .ok "en-us"
  | none => .ok "en-us"

/-- Speaker selection (piper_engine.cpp lines 224-226): `speaker_id` stays
0, but a present `num_speakers` is read with `get<int>`, which may throw. -/
def extract_num_speakers (config : Json) : Except Unit Int :=
  match config.find "num_speakers" with
  | some v =>
    match v.getInt with
    | .ok _ => .ok 0
    | .error e => .error e
  | none => .ok 0

/-- Outcome oracle for the external collaborators of one `synthesize`
call: config file open, JSON parse (`none` = `json::parse` threw),
the espeak build flag and phonemize outcome, `createSession`, and the
inference run. -/
structure SynthEnv where
  config_open_ok : Bool
  config_json : Option Json
  has_espeak : Bool
  phonemize_result : Except SynthesizeError (List String)
  create_result : Option OrtSessionObj
  run_env : RunEnv

/-- Observable result of one `synthesize` call: `returned = some b` is a
normal `return b`; `returned = none` means an exception escaped (the
accessor `get<T>` calls are outside any try/catch).  `pcm` and
`sample_rate` are the final states of the two out-parameters, `error` the
final `*out_error` (initially `kNone`), plus the cache and memo states and
the cache events of the call. -/
structure SynthReturn where
  returned : Option Bool
  pcm : List Int
  sample_rate : Int
  error : SynthesizeError
  cache : CacheState
  memo : SidMemo
  events : List CacheEvent

/-- `piper::synthesize` (piper_engine.cpp lines 153-270), the 7-parameter
definition that exists in the source (it has no overrides parameter).
Steps in source order: clear `pcm_out`, argument validation, config open
and parse, `sample_rate` / inference / voice extraction, phoneme map and
`default_id`, espeak phonemization, encoding, the `num_speakers` read,
the locked session-cache section, inference, and PCM conversion. -/
def synthesize (model_path config_path espeak_data_path text : String)
    (env : SynthEnv) (cache : CacheState) (memo : SidMemo) : SynthReturn :=
  if model_path = "" ∨ config_path = "" ∨ text = "" then
    ⟨some false, [], 22050, .kInvalidArgs, cache, memo, []⟩
  else if env.config_open_ok = false then
    ⟨some false, [], 22050, .kConfigOpenFailed, cache, memo, []⟩
  else
    match env.config_json with
    | none => ⟨some false, [], 22050, .kConfigParseFailed, cache, memo, []⟩
    | some config =>
      match extract_sample_rate config with
      | .error _ => ⟨none, [], 22050, .kNone, cache, memo, []⟩
      | .ok sr =>
        match extract_inference config with
        | .error _ => ⟨none, [], sr, .kNone, cache, memo, []⟩
        | .ok scales =>
          match extract_voice config with
          | .error _ => ⟨none, [], sr, .kNone, cache, memo, []⟩
          | .ok _voice =>
            if env.has_espeak = false then
              ⟨some false, [], sr, .kEspeakNotLinked, cache, memo, []⟩
            else
              match env.phonemize_result with
              | .error e => ⟨some false, [], sr, e, cache, memo, []⟩
              | .ok phonemes =>
                if phonemes_to_ids phonemes (parse_phoneme_id_map config)
                    (compute_default_id (parse_phoneme_id_map config)) = [] then
                  ⟨some false, [], sr, .kPhonemeIdsEmpty, cache, memo, []⟩
                else
                  match extract_num_speakers config with
                  | .error _ => ⟨none, [], sr, .kNone, cache, memo, []⟩
                  | .ok speaker_id =>
                    match acquireSession cache model_path env.create_result with
                    | (cache1, .error e, evs) =>
                      ⟨some false, [], sr, e, cache1, memo, evs⟩
                    | (cache1, .ok sess, evs) =>
                      match runInference env.run_env memo sess
                          (phonemes_to_ids phonemes (parse_phoneme_id_map config)
                            (compute_default_id (parse_phoneme_id_map config)))
                          scales.1 scales.2.1 scales.2.2 speaker_id with
                      | rr =>
                        if rr.audio = [] then
                          ⟨some false, [], sr, .kOrtRunInferenceFailed, cache1, rr.memo, evs⟩
                        else
                          ⟨some true, to_pcm16 rr.audio, sr, .kNone, cache1, rr.memo, evs⟩

/-! ## Concrete inputs used by witnesses and counterexamples -/

/-- A phoneme map with BOS and EOS entries but no PAD entry. -/
def mEx : String → Option (List Int) := fun k =>
  if k = "^" then some [1] else if k = "$" then some [2] else none

/-- A phoneme map whose only entry is `" " ↦ [7]`. -/
def mSpace : String → Option (List Int) := fun k =>
  if k = " " then some [7] else none

/-- The empty JSON config document `{}`. -/
def cfg0 : Json := Json.obj []

/-- A config that parses as JSON but has a wrongly-typed
`audio.sample_rate` (a string instead of a number). -/
def badTypeDoc : Json :=
  Json.obj [("audio", Json.obj [("sample_rate", Json.str "fast")])]

/-- A config whose `phoneme_id_map` has an entry of unexpected type
(`"a"` maps to a plain integer instead of an array). -/
def lenientDoc : Json :=
  Json.obj [("phoneme_id_map", Json.obj [("a", Json.int 5)])]

/-- A run oracle where every ONNX C-API step succeeds and the output
tensor has shape `[1, 1, 4]` with constant data. -/
def runEnvOk : RunEnv :=
  { mem_ok := true, input_ok := true, lengths_ok := true, scales_ok := true
    sid_ok := true, run_ok := true, output_nonnull := true, shape_ok := true
    dims_count_ok := true, dims_read_ok := true, dims := [1, 1, 4]
    data_ok := true, data_nonnull := true, data := fun _ => 1 }

/-- A config whose `audio` section is present but has no `sample_rate`. -/
def audioNoRateDoc : Json :=
  Json.obj [("audio", Json.obj [("channels", Json.int 1)])]

/-- A config with a wrongly-typed `inference.noise_scale` (a string). -/
def badNoiseDoc : Json :=
  Json.obj [("inference", Json.obj [("noise_scale", Json.str "x")])]

/-- A config with a wrongly-typed `num_speakers` (a string). -/
def badSpeakersDoc : Json :=
  Json.obj [("num_speakers", Json.str "many")]

/-- A session object without a `"sid"` input. -/
def sessNoSid : OrtSessionObj := ⟨1, ["input", "input_lengths", "scales"]⟩

/-- A session object with a `"sid"` input. -/
def sessWithSid : OrtSessionObj := ⟨5, ["input", "input_lengths", "scales", "sid"]⟩

/-- An all-successful environment for `synthesize` with the given parsed
config document. -/
def envAllOk (doc : Json) : SynthEnv :=
  { config_open_ok := true, config_json := some doc, has_espeak := true
    phonemize_result := .ok ["a"], create_result := some sessNoSid
    run_env := runEnvOk }

/-! ## Helper lemmas about the phoneme encoder -/

theorem encodeStep_eq (m : String → Option (List Int)) (d : Int)
    (ids : List Int) (sym : String) :
    encodeStep m d ids sym = ids ++ symSeg m d sym := by
  unfold encodeStep symSeg padSeg
  cases m sym <;> cases m "_" <;> simp

theorem foldl_encodeStep (m : String → Option (List Int)) (d : Int) :
    ∀ (ps : List String) (acc : List Int),
      ps.foldl (encodeStep m d) acc = acc ++ bodySeg m d ps := by
  intro ps
  induction ps with
  | nil => intro acc; simp [bodySeg]
  | cons s t ih =>
    intro acc
    rw [List.foldl_cons, ih, encodeStep_eq]
    simp [bodySeg, List.append_assoc]

/-- Closed form of the encoder: header, per-symbol body, trailer. -/
theorem phonemes_to_ids_eq (ps : List String)
    (m : String → Option (List Int)) (d : Int) :
    phonemes_to_ids ps m d = bosHeader m ++ bodySeg m d ps ++ eosSeg m := by
  simp only [phonemes_to_ids]
  rw [foldl_encodeStep]
  cases h1 : m "^" <;> cases h2 : m "_" <;> cases h3 : m "$" <;>
    simp [bosHeader, eosSeg, padSeg, h1, h2, h3, List.append_assoc]

theorem bodySeg_append (m : String → Option (List Int)) (d : Int)
    (ps1 ps2 : List String) :
    bodySeg m d (ps1 ++ ps2) = bodySeg m d ps1 ++ bodySeg m d ps2 := by
  simp [bodySeg]

theorem symSeg_ne_nil (m : String → Option (List Int)) (d : Int) (s : String)
    (hm : ∀ k l, m k = some l → l ≠ []) : symSeg m d s ≠ [] := by
  unfold symSeg
  cases h : m s with
  | none => simp
  | some l =>
    have := hm s l h
    intro hc
    rcases List.append_eq_nil.mp hc with ⟨h1, _⟩
    exact this h1

/-! ## Claim C1 -/

/-- C1: for every phoneme symbol sequence and id map, `phonemes_to_ids`
produces exactly the BOS-then-PAD header (PAD header inside the BOS
branch, each segment only when its reserved key exists), then for each
symbol in order its mapped ids (or one `default_id` when absent) followed
by the PAD ids, then the EOS ids; and for a map lacking a PAD entry no
padding is inserted anywhere while the BOS/EOS segments are unchanged. -/
theorem phonemes_to_ids_segments :
    ∀ (ps : List String) (m : String → Option (List Int)) (d : Int),
      phonemes_to_ids ps m d = bosHeader m ++ bodySeg m d ps ++ eosSeg m
      ∧ (m "_" = none →
          phonemes_to_ids ps m d
            = (m "^").getD []
              ++ (ps.map (fun s => (m s).getD [d])).flatten
              ++ (m "$").getD []) := by
  intro ps m d
  refine ⟨phonemes_to_ids_eq ps m d, ?_⟩
  intro hpad
  rw [phonemes_to_ids_eq]
  have hsym : ∀ s, symSeg m d s = (m s).getD [d] := by
    intro s
    unfold symSeg padSeg
    rw [hpad]
    cases m s <;> simp
  have hbos : bosHeader m = (m "^").getD [] := by
    unfold bosHeader padSeg
    rw [hpad]
    cases m "^" <;> simp
  have hfun : symSeg m d = fun s => (m s).getD [d] := funext hsym
  simp [bodySeg, eosSeg, hbos, hfun]

/-- Witness for C1 at a concrete map lacking a PAD entry. -/
theorem phonemes_to_ids_segments_w :
    phonemes_to_ids ["x"] mEx 3 = [1, 3, 2] :=
  ((phonemes_to_ids_segments ["x"] mEx 3).2 rfl).trans (by decide)

/-! ## Claim C8 -/

/-- C8: a symbol absent from the id map contributes exactly one
`default_id` (plus the PAD segment every symbol gets), and the
`default_id` used by `synthesize` is the first id of the map's `" "` entry
when that entry exists and is non-empty, and the constant 3 otherwise. -/
theorem default_id_resolution :
    (∀ (m : String → Option (List Int)) (d : Int) (ps1 ps2 : List String) (s : String),
      m s = none →
      phonemes_to_ids (ps1 ++ s :: ps2) m d
        = bosHeader m ++ bodySeg m d ps1 ++ ([d] ++ padSeg m)
          ++ bodySeg m d ps2 ++ eosSeg m)
    ∧ (∀ (m : String → Option (List Int)) (i : Int) (l : List Int),
        m " " = some (i :: l) → compute_default_id m = i)
    ∧ (∀ m : String → Option (List Int), m " " = none → compute_default_id m = 3)
    ∧ (∀ m : String → Option (List Int), m " " = some [] → compute_default_id m = 3) := by
  refine ⟨?_, ?_, ?_, ?_⟩
  · intro m d ps1 ps2 s hs
    rw [phonemes_to_ids_eq, bodySeg_append]
    have hmid : bodySeg m d (s :: ps2) = ([d] ++ padSeg m) ++ bodySeg m d ps2 := by
      simp [bodySeg, symSeg, hs]
    rw [hmid]
    simp [List.append_assoc]
  · intro m i l h
    unfold compute_default_id
    rw [h]
    simp
  · intro m h
    unfold compute_default_id
    rw [h]
  · intro m h
    unfold compute_default_id
    rw [h]
    simp

/-- Witness for C8: with `" " ↦ [7]` the default id is 7 and an unknown
symbol encodes to exactly `[7]`. -/
theorem default_id_resolution_w :
    compute_default_id mSpace = 7 ∧ phonemes_to_ids ["q"] mSpace 7 = [7] := by
  constructor
  · exact default_id_resolution.2.1 mSpace 7 [] rfl
  · exact (default_id_resolution.1 mSpace 7 [] [] "q" rfl).trans (by decide)

/-! ## Claim C10 -/

/-- C10: entries surviving config parsing always carry at least one id,
and for maps whose entries are all non-empty the encoder's output is empty
iff the symbol sequence is empty and the map contains neither a BOS
(`"^"`) nor an EOS (`"$"`) entry. -/
theorem phoneme_ids_empty_characterization :
    (∀ (config : Json) (k : String) (l : List Int),
        parse_phoneme_id_map config k = some l → l ≠ [])
    ∧ (∀ (ps : List String) (m : String → Option (List Int)) (d : Int),
        (∀ k l, m k = some l → l ≠ []) →
        (phonemes_to_ids ps m d = [] ↔ ps = [] ∧ m "^" = none ∧ m "$" = none)) := by
  constructor
  · intro config k l h
    unfold parse_phoneme_id_map at h
    split at h
    · split at h
      · dsimp only at h
        split at h
        · exact absurd h (by simp)
        next hne =>
          injection h with h
          subst h
          simpa using hne
      · exact absurd h (by simp)
    · exact absurd h (by simp)
  · intro ps m d hm
    rw [phonemes_to_ids_eq]
    constructor
    · intro h
      rcases List.append_eq_nil.mp h with ⟨h12, h3⟩
      rcases List.append_eq_nil.mp h12 with ⟨h1, h2⟩
      refine ⟨?_, ?_, ?_⟩
      · cases ps with
        | nil => rfl
        | cons s t =>
          exfalso
          have hne := symSeg_ne_nil m d s hm
          have : symSeg m d s ++ bodySeg m d t = [] := by
            simpa [bodySeg] using h2
          exact hne (List.append_eq_nil.mp this).1
      · cases hb : m "^" with
        | none => rfl
        | some bos =>
          exfalso
          have hbne := hm "^" bos hb
          unfold bosHeader at h1
          rw [hb] at h1
          exact hbne (List.append_eq_nil.mp h1).1
      · cases he : m "$" with
        | none => rfl
        | some eos =>
          exfalso
          have hene := hm "$" eos he
          unfold eosSeg at h3
          rw [he] at h3
          exact hene h3
    · rintro ⟨hps, hb, he⟩
      subst hps
      simp [bosHeader, bodySeg, eosSeg, hb, he]

/-- Witness for C10: over the empty config's (empty) parsed map, the empty
symbol sequence encodes to the empty sequence. -/
theorem phoneme_ids_empty_characterization_w :
    phonemes_to_ids [] (parse_phoneme_id_map cfg0) 3 = [] :=
  (phoneme_ids_empty_characterization.2 [] (parse_phoneme_id_map cfg0) 3
    (fun k l h => phoneme_ids_empty_characterization.1 cfg0 k l h)).mpr
    ⟨rfl, rfl, rfl⟩

/-! ## Helper lemmas about PCM conversion -/

theorem maxAbsStep_eq :
    (fun (m v : ℚ) => if |v| > m then |v| else m) = fun m v => max m |v| := by
  funext a v
  rcases le_or_lt (|v|) a with h | h
  · rw [if_neg (not_lt.mpr h), max_eq_left h]
  · rw [if_pos h, max_eq_right h.le]

theorem foldl_max_max :
    ∀ (l : List ℚ) (a b : ℚ),
      l.foldl (fun m v => max m |v|) (max a b)
        = max a (l.foldl (fun m v => max m |v|) b) := by
  intro l
  induction l with
  | nil => intro a b; rfl
  | cons v t ih =>
    intro a b
    rw [List.foldl_cons, List.foldl_cons, max_assoc, ih]

/-- The running maximum of the source (fold starting at `0.01`) equals the
spec's `max(0.01, max |s|)` form. -/
theorem maxAbs_foldl (l : List ℚ) :
    l.foldl (fun m v => if |v| > m then |v| else m) (1/100)
      = max (1/100) (l.foldl (fun m v => max m |v|) 0) := by
  rw [maxAbsStep_eq]
  have h : (1/100 : ℚ) = max (1/100) 0 := by norm_num
  conv_lhs => rw [h]
  exact foldl_max_max l (1/100) 0

/-! ## Claim C4 -/

/-- C4: PCM conversion maps each sample to
`trunc(clamp(s * 32767 / max(0.01, max |s|), -32767, 32767))`; the scale
denominator is positive (no division by zero), an all-zero input produces
an all-zero output, and an empty input produces an empty output. -/
theorem to_pcm16_spec :
    (∀ samples : List ℚ,
      to_pcm16 samples
        = samples.map (fun v =>
            truncQ (max (-32767) (min 32767
              (v * (32767 / max (1/100) (samples.foldl (fun m w => max m |w|) 0))))))
      ∧ (0:ℚ) < max (1/100) (samples.foldl (fun m w => max m |w|) 0))
    ∧ (∀ n : Nat, to_pcm16 (List.replicate n 0) = List.replicate n 0)
    ∧ to_pcm16 [] = [] := by
  refine ⟨?_, ?_, rfl⟩
  · intro samples
    constructor
    · simp only [to_pcm16]
      rw [maxAbs_foldl, ← max_assoc, max_self]
    · exact lt_of_lt_of_le (by norm_num) (le_max_left _ _)
  · intro n
    have hfold : (List.replicate n (0:ℚ)).foldl
        (fun m v => if |v| > m then |v| else m) (1/100) = 1/100 := by
      induction n with
      | zero => rfl
      | succ k ih =>
        rw [List.replicate_succ, List.foldl_cons]
        have h0 : (if |(0:ℚ)| > 1/100 then |(0:ℚ)| else 1/100) = 1/100 := by
          norm_num
        rw [h0, ih]
    simp only [to_pcm16, hfold]
    rw [List.map_replicate]
    norm_num [truncQ]

/-! ## Claim C2 -/

/-- C2: the locked cache section reuses a cached session on a path match
with no create or destroy; on a path change it performs exactly one
destroy (when a session exists) followed by exactly one create and records
the new path; when creation fails it returns `kOrtCreateSessionFailed`
leaving no session but the path updated, and a retry with the same path
attempts creation again. -/
theorem acquireSession_contract :
    ∀ (st : CacheState) (p : String) (cr : Option OrtSessionObj),
      (∀ s, st.cached_model_path = p → st.cached_session = some s →
        acquireSession st p cr = (st, Except.ok s, []))
      ∧ (st.cached_model_path ≠ p →
          (acquireSession st p cr).2.2
            = (match st.cached_session with
               | some s => [CacheEvent.destroy s.id, CacheEvent.create p]
               | none => [CacheEvent.create p])
          ∧ ((acquireSession st p cr).1).cached_model_path = p)
      ∧ (cr = none → st.cached_model_path ≠ p →
          acquireSession st p cr
            = (⟨none, p⟩, Except.error SynthesizeError.kOrtCreateSessionFailed,
               (match st.cached_session with
                | some s => [CacheEvent.destroy s.id, CacheEvent.create p]
                | none => [CacheEvent.create p])))
      ∧ (cr = none → st.cached_model_path = p → st.cached_session = none →
          acquireSession st p cr
            = (⟨none, p⟩, Except.error SynthesizeError.kOrtCreateSessionFailed,
               [CacheEvent.create p]))
      ∧ (∀ cr2, (acquireSession ⟨none, p⟩ p cr2).2.2 = [CacheEvent.create p]) := by
  intro st p cr
  refine ⟨?_, ?_, ?_, ?_, ?_⟩
  · intro s hp hs
    simp [acquireSession, cacheEvict, cacheCreate, hp, hs]
  · intro hp
    cases hcs : st.cached_session <;> cases hcr : cr <;>
      simp [acquireSession, cacheEvict, cacheCreate, hp, hcs, hcr]
  · intro hcr hp
    cases hcs : st.cached_session <;>
      simp [acquireSession, cacheEvict, cacheCreate, hp, hcs, hcr]
  · intro hcr hp hs
    simp [acquireSession, cacheEvict, cacheCreate, hp, hs, hcr]
  · intro cr2
    cases cr2 <;> simp [acquireSession, cacheEvict, cacheCreate]

/-- Witness for C2: a concrete same-path reuse and a concrete path change
with one destroy followed by one create. -/
theorem acquireSession_contract_w :
    acquireSession ⟨some sessNoSid, "m"⟩ "m" none
      = (⟨some sessNoSid, "m"⟩, Except.ok sessNoSid, [])
    ∧ (acquireSession ⟨some sessNoSid, "m"⟩ "n" none).2.2
      = [CacheEvent.destroy sessNoSid.id, CacheEvent.create "n"] := by
  constructor
  · exact (acquireSession_contract ⟨some sessNoSid, "m"⟩ "m" none).1 sessNoSid rfl rfl
  · exact ((acquireSession_contract ⟨some sessNoSid, "m"⟩ "n" none).2.1
      (by decide)).1

/-! ## Helper lemma about the post-gate part of runInference -/

theorem runCore_projections (env : RunEnv) (memo1 : SidMemo) (use_sid intr : Bool) :
    (runCore env memo1 use_sid intr).memo = memo1
    ∧ (runCore env memo1 use_sid intr).introspected = intr
    ∧ (runCore env memo1 use_sid intr).run_input_names
        = some (if use_sid then ["input", "input_lengths", "scales", "sid"]
                else ["input", "input_lengths", "scales"]) := by
  simp only [runCore]
  repeat' split
  all_goals exact ⟨rfl, rfl, rfl⟩

/-! ## Claim C3 -/

/-- C3: provided the memo is consistent for the current session object,
the `"sid"` tensor name is passed to `Run` iff the session's declared
inputs contain one named `"sid"`; a repeat run against the same session
object (compared by identity) skips re-introspection and keeps the memo,
while the first run against a session object (reaching the gate)
introspects and re-memoizes against that identity. -/
theorem runInference_sid_gating :
    ∀ (env : RunEnv) (memo : SidMemo) (sess : OrtSessionObj) (ids : List Int)
      (a b c : ℚ) (sid : Int),
      (memo.last_logged = some sess.id → memo.has_sid = detectSid sess) →
      ((∀ names, (runInference env memo sess ids a b c sid).run_input_names = some names →
          (("sid" ∈ names) ↔ ("sid" ∈ sess.input_names)))
       ∧ (memo.last_logged = some sess.id →
           (runInference env memo sess ids a b c sid).introspected = false
           ∧ (runInference env memo sess ids a b c sid).memo = memo)
       ∧ (memo.last_logged ≠ some sess.id →
           env.mem_ok = true → env.input_ok = true → env.lengths_ok = true →
           env.scales_ok = true → env.sid_ok = true →
           (runInference env memo sess ids a b c sid).introspected = true
           ∧ (runInference env memo sess ids a b c sid).memo
               = ⟨some sess.id, detectSid sess⟩)) := by
  intro env memo sess ids a b c sid hconsist
  have hsid_mem : ∀ u : Bool,
      (("sid" ∈ (if u then ["input", "input_lengths", "scales", "sid"]
                 else ["input", "input_lengths", "scales"])) ↔ u = true) := by
    intro u; cases u <;> simp
  have hdetect : (detectSid sess = true) ↔ ("sid" ∈ sess.input_names) := by
    simp [detectSid]
  unfold runInference
  by_cases e1 : env.mem_ok = false
  · rw [if_pos e1]
    exact ⟨fun names h => absurd h (by simp), fun _ => ⟨rfl, rfl⟩,
           fun _ hm _ _ _ _ => absurd hm (by simp [e1])⟩
  rw [if_neg e1]
  by_cases e2 : env.input_ok = false
  · rw [if_pos e2]
    exact ⟨fun names h => absurd h (by simp), fun _ => ⟨rfl, rfl⟩,
           fun _ _ hm _ _ _ => absurd hm (by simp [e2])⟩
  rw [if_neg e2]
  by_cases e3 : env.lengths_ok = false
  · rw [if_pos e3]
    exact ⟨fun names h => absurd h (by simp), fun _ => ⟨rfl, rfl⟩,
           fun _ _ _ hm _ _ => absurd hm (by simp [e3])⟩
  rw [if_neg e3]
  by_cases e4 : env.scales_ok = false
  · rw [if_pos e4]
    exact ⟨fun names h => absurd h (by simp), fun _ => ⟨rfl, rfl⟩,
           fun _ _ _ _ hm _ => absurd hm (by simp [e4])⟩
  rw [if_neg e4]
  by_cases e5 : env.sid_ok = false
  · rw [if_pos e5]
    exact ⟨fun names h => absurd h (by simp), fun _ => ⟨rfl, rfl⟩,
           fun _ _ _ _ _ hm => absurd hm (by simp [e5])⟩
  rw [if_neg e5]
  by_cases hg : memo.last_logged = some sess.id
  · rw [if_pos hg]
    obtain ⟨pm, pi, pn⟩ := runCore_projections env memo memo.has_sid false
    refine ⟨?_, fun _ => ⟨pi, pm⟩, fun hne => absurd hg hne⟩
    intro names h
    rw [pn] at h
    injection h with h
    subst h
    rw [hsid_mem, hconsist hg]
    exact hdetect
  · rw [if_neg hg]
    obtain ⟨pm, pi, pn⟩ :=
      runCore_projections env ⟨some sess.id, detectSid sess⟩ (detectSid sess) true
    refine ⟨?_, fun h => absurd h hg, fun _ _ _ _ _ _ => ⟨pi, pm⟩⟩
    intro names h
    rw [pn] at h
    injection h with h
    subst h
    rw [hsid_mem]
    exact hdetect

/-- Witness for C3: first run against a fresh session introspects and
memoizes its identity and capability. -/
theorem runInference_sid_gating_w :
    (runInference runEnvOk ⟨none, false⟩ sessWithSid [1] 1 1 1 0).introspected = true
    ∧ (runInference runEnvOk ⟨none, false⟩ sessWithSid [1] 1 1 1 0).memo
        = ⟨some sessWithSid.id, detectSid sessWithSid⟩ :=
  (runInference_sid_gating runEnvOk ⟨none, false⟩ sessWithSid [1] 1 1 1 0
    (fun hc => absurd hc (by simp))).2.2 (by simp) rfl rfl rfl rfl rfl

/-! ## Claim C7 -/

theorem runCore_audio_cases (env : RunEnv) (m1 : SidMemo) (u i : Bool) :
    ((env.run_ok = false ∨ env.output_nonnull = false ∨ env.shape_ok = false ∨
      env.dims_count_ok = false ∨ env.dims_read_ok = false ∨
      env.data_ok = false ∨ env.data_nonnull = false ∨
      env.dims.foldl (fun x y => x * y) 1 ≤ 0) → (runCore env m1 u i).audio = [])
    ∧ (env.run_ok = true → env.output_nonnull = true → env.shape_ok = true →
       env.dims_count_ok = true → env.dims_read_ok = true → env.data_ok = true →
       env.data_nonnull = true → ¬(env.dims.foldl (fun x y => x * y) 1 ≤ 0) →
       (runCore env m1 u i).audio
         = (List.range (env.dims.foldl (fun x y => x * y) 1).toNat).map env.data) := by
  constructor
  · intro h
    simp only [runCore]
    repeat' split
    all_goals simp_all
  · intro hrun hout hsh hdc hdr hdo hdn hle
    simp only [runCore, hrun, hout, hsh, hdc, hdr, hdo, hdn]
    rw [if_neg hle]
    simp

/-- C7: `runInference` returns the empty vector whenever any tensor
construction step or the run itself fails (or the output is null or
unreadable), and also when the product of the output tensor's declared
dimensions is ≤ 0; on success it returns exactly the product-many
contiguous elements of the output buffer — never a partial result. -/
theorem runInference_output_contract :
    ∀ (env : RunEnv) (memo : SidMemo) (sess : OrtSessionObj) (ids : List Int)
      (a b c : ℚ) (sid : Int),
      ((env.mem_ok = false ∨ env.input_ok = false ∨ env.lengths_ok = false ∨
        env.scales_ok = false ∨ env.sid_ok = false ∨ env.run_ok = false ∨
        env.output_nonnull = false ∨ env.shape_ok = false ∨ env.dims_count_ok = false ∨
        env.dims_read_ok = false ∨ env.data_ok = false ∨ env.data_nonnull = false) →
        (runInference env memo sess ids a b c sid).audio = [])
      ∧ (env.dims.foldl (fun x y => x * y) 1 ≤ 0 →
        (runInference env memo sess ids a b c sid).audio = [])
      ∧ (0 < env.dims.foldl (fun x y => x * y) 1 →
         env.mem_ok = true → env.input_ok = true → env.lengths_ok = true →
         env.scales_ok = true → env.sid_ok = true → env.run_ok = true →
         env.output_nonnull = true → env.shape_ok = true → env.dims_count_ok = true →
         env.dims_read_ok = true → env.data_ok = true → env.data_nonnull = true →
         (runInference env memo sess ids a b c sid).audio
           = (List.range (env.dims.foldl (fun x y => x * y) 1).toNat).map env.data
         ∧ ((runInference env memo sess ids a b c sid).audio).length
           = (env.dims.foldl (fun x y => x * y) 1).toNat) := by
  intro env memo sess ids a b c sid
  refine ⟨?_, ?_, ?_⟩
  · intro h
    unfold runInference
    by_cases e1 : env.mem_ok = false
    · rw [if_pos e1]
    rw [if_neg e1]
    by_cases e2 : env.input_ok = false
    · rw [if_pos e2]
    rw [if_neg e2]
    by_cases e3 : env.lengths_ok = false
    · rw [if_pos e3]
    rw [if_neg e3]
    by_cases e4 : env.scales_ok = false
    · rw [if_pos e4]
    rw [if_neg e4]
    by_cases e5 : env.sid_ok = false
    · rw [if_pos e5]
    rw [if_neg e5]
    by_cases hg : memo.last_logged = some sess.id
    · rw [if_pos hg]
      exact (runCore_audio_cases env memo memo.has_sid false).1 (by tauto)
    · rw [if_neg hg]
      exact (runCore_audio_cases env ⟨some sess.id, detectSid sess⟩
        (detectSid sess) true).1 (by tauto)
  · intro h
    unfold runInference
    by_cases e1 : env.mem_ok = false
    · rw [if_pos e1]
    rw [if_neg e1]
    by_cases e2 : env.input_ok = false
    · rw [if_pos e2]
    rw [if_neg e2]
    by_cases e3 : env.lengths_ok = false
    · rw [if_pos e3]
    rw [if_neg e3]
    by_cases e4 : env.scales_ok = false
    · rw [if_pos e4]
    rw [if_neg e4]
    by_cases e5 : env.sid_ok = false
    · rw [if_pos e5]
    rw [if_neg e5]
    by_cases hg : memo.last_logged = some sess.id
    · rw [if_pos hg]
      exact (runCore_audio_cases env memo memo.has_sid false).1 (by tauto)
    · rw [if_neg hg]
      exact (runCore_audio_cases env ⟨some sess.id, detectSid sess⟩
        (detectSid sess) true).1 (by tauto)
  · intro htot hmem hin hlen hsc hsd hrun hout hsh hdc hdr hdo hdn
    have hle : ¬(env.dims.foldl (fun x y => x * y) 1 ≤ 0) := not_le.mpr htot
    unfold runInference
    rw [if_neg (by simp [hmem]), if_neg (by simp [hin]), if_neg (by simp [hlen]),
        if_neg (by simp [hsc]), if_neg (by simp [hsd])]
    by_cases hg : memo.last_logged = some sess.id
    · rw [if_pos hg]
      have he := (runCore_audio_cases env memo memo.has_sid false).2
        hrun hout hsh hdc hdr hdo hdn hle
      exact ⟨he, by rw [he]; simp⟩
    · rw [if_neg hg]
      have he := (runCore_audio_cases env ⟨some sess.id, detectSid sess⟩
        (detectSid sess) true).2 hrun hout hsh hdc hdr hdo hdn hle
      exact ⟨he, by rw [he]; simp⟩

/-- Witness for C7: with an all-successful oracle and output shape
`[1, 1, 4]`, exactly 4 samples are returned. -/
theorem runInference_output_contract_w :
    (runInference runEnvOk ⟨none, false⟩ sessNoSid [1] 1 1 1 0).audio.length = 4 := by
  have h := (runInference_output_contract runEnvOk ⟨none, false⟩ sessNoSid [1] 1 1 1 0).2.2
    (by decide) rfl rfl rfl rfl rfl rfl rfl rfl rfl rfl rfl rfl
  rw [h.2]
  decide

/-! ## Claim C9 -/

/-- Case split: every `synthesize` outcome is either a non-success with an
empty `pcm_out`, or a success whose `pcm_out` is the full conversion of a
non-empty inference result. -/
theorem synthesize_cases (mp cp ep tx : String) (env : SynthEnv)
    (cache : CacheState) (memo : SidMemo) :
    ((synthesize mp cp ep tx env cache memo).returned ≠ some true
      ∧ (synthesize mp cp ep tx env cache memo).pcm = [])
    ∨ ((synthesize mp cp ep tx env cache memo).returned = some true
      ∧ ∃ audio : List ℚ, audio ≠ []
          ∧ (synthesize mp cp ep tx env cache memo).pcm = to_pcm16 audio) := by
  unfold synthesize
  repeat' split
  all_goals dsimp only
  all_goals repeat' split
  all_goals
    first
    | exact Or.inl ⟨by simp, rfl⟩
    | exact Or.inr ⟨rfl, ⟨_, by assumption, rfl⟩⟩

/-- C9: whenever `synthesize` does not return true (any error return, and
the uncaught-exception outcome), `pcm_out` is left empty; an empty model
path, config path or text yields `kInvalidArgs` with empty `pcm_out`; and
a true return carries the complete conversion of a non-empty waveform. -/
theorem synthesize_pcm_integrity :
    ∀ (mp cp ep tx : String) (env : SynthEnv) (cache : CacheState) (memo : SidMemo),
      ((synthesize mp cp ep tx env cache memo).returned ≠ some true →
        (synthesize mp cp ep tx env cache memo).pcm = [])
      ∧ ((mp = "" ∨ cp = "" ∨ tx = "") →
        (synthesize mp cp ep tx env cache memo).returned = some false
        ∧ (synthesize mp cp ep tx env cache memo).error = SynthesizeError.kInvalidArgs
        ∧ (synthesize mp cp ep tx env cache memo).pcm = [])
      ∧ ((synthesize mp cp ep tx env cache memo).returned = some true →
        ∃ audio : List ℚ, audio ≠ []
          ∧ (synthesize mp cp ep tx env cache memo).pcm = to_pcm16 audio) := by
  intro mp cp ep tx env cache memo
  refine ⟨?_, ?_, ?_⟩
  · intro h
    rcases synthesize_cases mp cp ep tx env cache memo with ⟨_, hp⟩ | ⟨hr, _⟩
    · exact hp
    · exact absurd hr h
  · intro hargs
    unfold synthesize
    rw [if_pos hargs]
    exact ⟨rfl, rfl, rfl⟩
  · intro h
    rcases synthesize_cases mp cp ep tx env cache memo with ⟨hne, _⟩ | ⟨_, hex⟩
    · exact absurd h hne
    · exact hex

/-- Witness for C9: empty text gives `kInvalidArgs` with empty PCM. -/
theorem synthesize_pcm_integrity_w :
    (synthesize "m" "c" "" "" (envAllOk cfg0) ⟨none, ""⟩ ⟨none, false⟩).returned = some false
    ∧ (synthesize "m" "c" "" "" (envAllOk cfg0) ⟨none, ""⟩ ⟨none, false⟩).error
        = SynthesizeError.kInvalidArgs
    ∧ (synthesize "m" "c" "" "" (envAllOk cfg0) ⟨none, ""⟩ ⟨none, false⟩).pcm = [] :=
  (synthesize_pcm_integrity "m" "c" "" "" (envAllOk cfg0) ⟨none, ""⟩ ⟨none, false⟩).2.1
    (Or.inr (Or.inr rfl))

/-! ## Claim C6 -/

/-- Counterexample to C6 as stated: a wrongly-typed `audio.sample_rate`
(a string) makes `synthesize` propagate an exception (`returned = none`)
instead of returning false with `kConfigParseFailed`; and a wrongly-typed
`phoneme_id_map` entry is silently skipped — the same all-successful call
returns true rather than failing. -/
theorem config_type_claim_counterexample :
    (synthesize "m" "c" "e" "t" (envAllOk badTypeDoc) ⟨none, ""⟩ ⟨none, false⟩).returned = none
    ∧ (synthesize "m" "c" "e" "t" (envAllOk lenientDoc) ⟨none, ""⟩ ⟨none, false⟩).returned
        = some true := by
  constructor <;> rfl

theorem read_float_field_none (o : Json) (key : String) (d : ℚ)
    (h : o.find key = none) : read_float_field o key d = .ok d := by
  simp [read_float_field, h]

/-- C6 (amended): absence of any optional config field — at either nesting
level — uses the stated default, and absence is never itself a failure
(extraction fails only because of a present, wrongly-typed field); but a
present field of unexpected type is not a `kConfigParseFailed` parse
failure of the whole document: the first wrongly-typed scalar field read
(`audio.sample_rate`, then `inference.*`, then `espeak.voice`, then —
once phonemization and encoding have succeeded — `num_speakers`) throws
an exception that escapes `synthesize` with no error code set, and
wrongly-typed entries inside `phoneme_id_map` are silently skipped. -/
theorem config_field_type_behavior :
    (∀ config : Json,
      (config.find "audio" = none → extract_sample_rate config = .ok 22050)
      ∧ (∀ audio, config.find "audio" = some audio →
          audio.find "sample_rate" = none → extract_sample_rate config = .ok 22050)
      ∧ (config.find "inference" = none →
          extract_inference config = .ok (667/1000, 1, 8/10))
      ∧ (∀ inf ns ls nw, config.find "inference" = some inf →
          extract_inference config = .ok (ns, ls, nw) →
          (inf.find "noise_scale" = none → ns = 667/1000)
          ∧ (inf.find "length_scale" = none → ls = 1)
          ∧ (inf.find "noise_w" = none → nw = 8/10))
      ∧ (config.find "espeak" = none → extract_voice config = .ok "en-us")
      ∧ (∀ esp, config.find "espeak" = some esp →
          esp.find "voice" = none → extract_voice config = .ok "en-us")
      ∧ (config.find "num_speakers" = none → extract_num_speakers config = .ok 0)
      ∧ (config.find "phoneme_id_map" = none →
          ∀ k, parse_phoneme_id_map config k = none))
    ∧ (∀ config : Json,
        (extract_sample_rate config = .error () →
          ∃ audio v, config.find "audio" = some audio
            ∧ audio.find "sample_rate" = some v ∧ v.getInt = .error ())
        ∧ (extract_inference config = .error () →
          ∃ inf, config.find "inference" = some inf
            ∧ ∃ key v,
              (key = "noise_scale" ∨ key = "length_scale" ∨ key = "noise_w")
              ∧ inf.find key = some v ∧ v.getFloat = .error ())
        ∧ (extract_voice config = .error () →
          ∃ esp v, config.find "espeak" = some esp
            ∧ esp.find "voice" = some v ∧ v.getString = .error ())
        ∧ (extract_num_speakers config = .error () →
          ∃ v, config.find "num_speakers" = some v ∧ v.getInt = .error ()))
    ∧ (∀ (mp cp ep tx : String) (env : SynthEnv) (cache : CacheState)
        (memo : SidMemo) (doc : Json),
        ¬(mp = "" ∨ cp = "" ∨ tx = "") → env.config_open_ok = true →
        env.config_json = some doc →
        ((extract_sample_rate doc = .error () →
            (synthesize mp cp ep tx env cache memo).returned = none
            ∧ (synthesize mp cp ep tx env cache memo).error
                ≠ SynthesizeError.kConfigParseFailed)
         ∧ (∀ sr, extract_sample_rate doc = .ok sr →
            extract_inference doc = .error () →
            (synthesize mp cp ep tx env cache memo).returned = none
            ∧ (synthesize mp cp ep tx env cache memo).error
                ≠ SynthesizeError.kConfigParseFailed)
         ∧ (∀ sr scales, extract_sample_rate doc = .ok sr →
            extract_inference doc = .ok scales →
            extract_voice doc = .error () →
            (synthesize mp cp ep tx env cache memo).returned = none
            ∧ (synthesize mp cp ep tx env cache memo).error
                ≠ SynthesizeError.kConfigParseFailed)
         ∧ (∀ sr scales voice phs, extract_sample_rate doc = .ok sr →
            extract_inference doc = .ok scales →
            extract_voice doc = .ok voice →
            env.has_espeak = true → env.phonemize_result = .ok phs →
            phonemes_to_ids phs (parse_phoneme_id_map doc)
              (compute_default_id (parse_phoneme_id_map doc)) ≠ [] →
            extract_num_speakers doc = .error () →
            (synthesize mp cp ep tx env cache memo).returned = none
            ∧ (synthesize mp cp ep tx env cache memo).error
                ≠ SynthesizeError.kConfigParseFailed)))
    ∧ (∀ (config : Json) (members : List (String × Json)) (k : String) (j : Json),
        config.find "phoneme_id_map" = some (Json.obj members) →
        members.lookup k = some j → (∀ els, j ≠ Json.arr els) →
        parse_phoneme_id_map config k = none) := by
  refine ⟨?_, ?_, ?_, ?_⟩
  · intro config
    refine ⟨?_, ?_, ?_, ?_, ?_, ?_, ?_, ?_⟩
    · intro h; simp [extract_sample_rate, h]
    · intro audio h1 h2; simp [extract_sample_rate, h1, h2]
    · intro h; simp [extract_inference, h]
    · intro inf ns ls nw hfind hok
      cases h1 : read_float_field inf "noise_scale" (667/1000) with
      | error e => exfalso; simp [extract_inference, hfind, h1] at hok
      | ok ns1 =>
        cases h2 : read_float_field inf "length_scale" 1 with
        | error e => exfalso; simp [extract_inference, hfind, h1, h2] at hok
        | ok ls1 =>
          cases h3 : read_float_field inf "noise_w" (8/10) with
          | error e => exfalso; simp [extract_inference, hfind, h1, h2, h3] at hok
          | ok nw1 =>
            have hcomp : ns1 = ns ∧ ls1 = ls ∧ nw1 = nw := by
              simpa [extract_inference, hfind, h1, h2, h3, Prod.ext_iff] using hok
            obtain ⟨e1, e2, e3⟩ := hcomp
            refine ⟨fun ha => ?_, fun ha => ?_, fun ha => ?_⟩
            · rw [read_float_field_none inf "noise_scale" (667/1000) ha] at h1
              injection h1 with h1
              rw [← e1, ← h1]
            · rw [read_float_field_none inf "length_scale" 1 ha] at h2
              injection h2 with h2
              rw [← e2, ← h2]
            · rw [read_float_field_none inf "noise_w" (8/10) ha] at h3
              injection h3 with h3
              rw [← e3, ← h3]
    · intro h; simp [extract_voice, h]
    · intro esp h1 h2; simp [extract_voice, h1, h2]
    · intro h; simp [extract_num_speakers, h]
    · intro h k; simp [parse_phoneme_id_map, h]
  · intro config
    refine ⟨?_, ?_, ?_, ?_⟩
    · intro h
      cases hfa : config.find "audio" with
      | none => simp [extract_sample_rate, hfa] at h
      | some audio =>
        cases hfs : audio.find "sample_rate" with
        | none => simp [extract_sample_rate, hfa, hfs] at h
        | some v =>
          refine ⟨audio, v, rfl, hfs, ?_⟩
          simpa [extract_sample_rate, hfa, hfs] using h
    · intro h
      cases hfi : config.find "inference" with
      | none => simp [extract_inference, hfi] at h
      | some inf =>
        refine ⟨inf, rfl, ?_⟩
        cases h1 : read_float_field inf "noise_scale" (667/1000) with
        | error e =>
          cases hv : inf.find "noise_scale" with
          | none => exfalso; simp [read_float_field, hv] at h1
          | some v =>
            refine ⟨"noise_scale", v, Or.inl rfl, hv, ?_⟩
            cases e
            simpa [read_float_field, hv] using h1
        | ok ns =>
          cases h2 : read_float_field inf "length_scale" 1 with
          | error e =>
            cases hv : inf.find "length_scale" with
            | none => exfalso; simp [read_float_field, hv] at h2
            | some v =>
              refine ⟨"length_scale", v, Or.inr (Or.inl rfl), hv, ?_⟩
              cases e
              simpa [read_float_field, hv] using h2
          | ok ls =>
            cases h3 : read_float_field inf "noise_w" (8/10) with
            | error e =>
              cases hv : inf.find "noise_w" with
              | none => exfalso; simp [read_float_field, hv] at h3
              | some v =>
                refine ⟨"noise_w", v, Or.inr (Or.inr rfl), hv, ?_⟩
                cases e
                simpa [read_float_field, hv] using h3
            | ok nw =>
              exfalso
              simp [extract_inference, hfi, h1, h2, h3] at h
    · intro h
      cases hfe : config.find "espeak" with
      | none => simp [extract_voice, hfe] at h
      | some esp =>
        cases hfv : esp.find "voice" with
        | none => simp [extract_voice, hfe, hfv] at h
        | some v =>
          refine ⟨esp, v, rfl, hfv, ?_⟩
          simpa [extract_voice, hfe, hfv] using h
    · intro h
      cases hfn : config.find "num_speakers" with
      | none => simp [extract_num_speakers, hfn] at h
      | some v =>
        refine ⟨v, rfl, ?_⟩
        cases hi : v.getInt with
        | error e => cases e; rfl
        | ok n => exfalso; simp [extract_num_speakers, hfn, hi] at h
  · intro mp cp ep tx env cache memo doc hargs hopen hjson
    have hop : ¬(env.config_open_ok = false) := by simp [hopen]
    refine ⟨?_, ?_, ?_, ?_⟩
    · intro herr
      unfold synthesize
      rw [if_neg hargs, if_neg hop]
      simp only [hjson, herr]
      refine ⟨?_, ?_⟩
      · trivial
      · decide
    · intro sr hsr herr
      unfold synthesize
      rw [if_neg hargs, if_neg hop]
      simp only [hjson, hsr, herr]
      refine ⟨?_, ?_⟩
      · trivial
      · decide
    · intro sr scales hsr hinf herr
      unfold synthesize
      rw [if_neg hargs, if_neg hop]
      simp only [hjson, hsr, hinf, herr]
      refine ⟨?_, ?_⟩
      · trivial
      · decide
    · intro sr scales voice phs hsr hinf hvoice hesp hph hids herr
      unfold synthesize
      rw [if_neg hargs, if_neg hop]
      simp only [hjson, hsr, hinf, hvoice]
      rw [if_neg (show ¬(env.has_espeak = false) by simp [hesp])]
      simp only [hph]
      rw [if_neg hids]
      simp only [herr]
      refine ⟨?_, ?_⟩
      · trivial
      · decide
  · intro config members k j hfind hj hnotarr
    unfold parse_phoneme_id_map
    simp only [hfind, hj]
    cases j with
    | arr els => exact absurd rfl (hnotarr els)
    | null => rfl
    | bool b => rfl
    | int n => rfl
    | float q => rfl
    | str s => rfl
    | obj mem2 => rfl

/-- Witness for C6 (amended): a present `audio` section without
`sample_rate` still resolves the default; a wrongly-typed
`inference.noise_scale` and a wrongly-typed `num_speakers` both escape as
exceptions; a wrongly-typed `phoneme_id_map` entry is skipped. -/
theorem config_field_type_behavior_w :
    extract_sample_rate audioNoRateDoc = .ok 22050
    ∧ (synthesize "m" "c" "e" "t" (envAllOk badNoiseDoc)
        ⟨none, ""⟩ ⟨none, false⟩).returned = none
    ∧ (synthesize "m" "c" "e" "t" (envAllOk badSpeakersDoc)
        ⟨none, ""⟩ ⟨none, false⟩).returned = none
    ∧ parse_phoneme_id_map lenientDoc "a" = none := by
  refine ⟨?_, ?_, ?_, ?_⟩
  · exact (config_field_type_behavior.1 audioNoRateDoc).2.1
      (Json.obj [("channels", Json.int 1)]) rfl rfl
  · exact ((config_field_type_behavior.2.2.1 "m" "c" "e" "t" (envAllOk badNoiseDoc)
      ⟨none, ""⟩ ⟨none, false⟩ badNoiseDoc (by decide) rfl rfl).2.1
      22050 rfl rfl).1
  · exact ((config_field_type_behavior.2.2.1 "m" "c" "e" "t" (envAllOk badSpeakersDoc)
      ⟨none, ""⟩ ⟨none, false⟩ badSpeakersDoc (by decide) rfl rfl).2.2.2
      22050 (667/1000, 1, 8/10) "en-us" ["a"] rfl rfl rfl rfl rfl
      (by decide) rfl).1
  · exact config_field_type_behavior.2.2.2 lenientDoc [("a", Json.int 5)] "a"
      (Json.int 5) rfl rfl (fun els h => Json.noConfusion h)

/-! ## Claim C5 -/

/-- C5 (code bug): the only `synthesize` definition in the source resolves
the inference hyperparameters from the config alone (it has no overrides
parameter), so for the empty config they are the defaults
`(0.667, 1.0, 0.8)`; the header-documented resolution with an override
`noise_scale = 0.5` would instead give `(0.5, 1.0, 0.8)` — the two
disagree. -/
theorem overrides_not_applied :
    extract_inference cfg0 = .ok (667/1000, 1, 8/10)
    ∧ documented_resolve_scales (667/1000, 1, 8/10) { noise_scale := 1/2 }
        = (1/2, 1, 8/10)
    ∧ ((667/1000 : ℚ), (1 : ℚ), (8/10 : ℚ)) ≠ ((1/2 : ℚ), (1 : ℚ), (8/10 : ℚ)) := by
  refine ⟨rfl, ?_, by norm_num⟩
  unfold documented_resolve_scales
  norm_num

end Piper
